import Mathlib

/-!
# The Android load hook of react-native-nitro-battery

A shallow embedding of `android/src/main/cpp/cpp-adapter.cpp`:

```cpp
JNIEXPORT jint JNICALL JNI_OnLoad(JavaVM *vm, void *)
{
  return facebook::jni::initialize(vm, [=]
                                   { margelo::nitro::battery::initialize(vm); });
}
```

The two routines the hook calls live outside this file (`fbjni` and the generated
`NitroBatteryOnLoad`), so the embedding takes both as parameters.  Effects are made
explicit: a computation maps a world state to an outcome (a value, or a thrown C++
exception) together with the world state it leaves behind.
-/

namespace NitroBattery

/-! ## Values -/

/-- The `JavaVM *` handle handed to the hook by the runtime, identified by its address. -/
structure JavaVM where
  addr : Nat
deriving DecidableEq

/-- The `void *` of the hook's second, unnamed parameter. -/
structure VoidPtr where
  addr : Nat
deriving DecidableEq

/-- The JNI status type `jint`. The hook performs no arithmetic on it. -/
abbrev jint : Type := Int

/-! ## Effects -/

/-- A computation over world states `W` that either returns an `α` or throws an `ε`.
A thrown exception does not roll the world back, so the final world is kept in both
cases. -/
def Eff (W ε α : Type) : Type := W → Except ε α × W

/-- Return a value without touching the world. -/
def Eff.pure {W ε α : Type} (a : α) : Eff W ε α :=
  fun w => (Except.ok a, w)

/-- Sequencing: run `m`; if it returned, continue with `f`; if it threw, the exception
propagates and `f` is not run. -/
def Eff.bind {W ε α β : Type} (m : Eff W ε α) (f : α → Eff W ε β) : Eff W ε β :=
  fun w =>
    match m w with
    | (Except.ok a, w') => f a w'
    | (Except.error e, w') => (Except.error e, w')

/-! ## The hook -/

/-- The closure `[=] { margelo::nitro::battery::initialize(vm); }`.
It captures `vm` by value; its body is one expression statement, so whatever the
external routine returns (its result type `ρ` is declared in a header outside this
file) is discarded and the closure itself returns `void`. There is no `try`. -/
def JNI_OnLoad.lambda {W ε ρ : Type} (batteryInit : JavaVM → Eff W ε ρ) (vm : JavaVM) :
    Eff W ε Unit :=
  Eff.bind (batteryInit vm) (fun _ => Eff.pure ())

/-- The hook `JNI_OnLoad(JavaVM *vm, void *)`.
`fbjniInit` stands for `facebook::jni::initialize` and `batteryInit` for
`margelo::nitro::battery::initialize`. The body is a single `return` of the
`fbjniInit` call; the second parameter has no name in the source and is never read. -/
def JNI_OnLoad {W ε ρ : Type} (fbjniInit : JavaVM → Eff W ε Unit → Eff W ε jint)
    (batteryInit : JavaVM → Eff W ε ρ) (vm : JavaVM) (_ : VoidPtr) : Eff W ε jint :=
  fbjniInit vm (JNI_OnLoad.lambda batteryInit vm)

/-! ## An instrumented environment

To speak about *which calls are made*, the world carries a log. Every call that leaves
`cpp-adapter.cpp` is recorded in it by the stand-in of the routine that is called; what
the external routines do internally is their own business and acts on the remaining
part `ext` of the world only. -/

/-- Calls observed at the boundary of `cpp-adapter.cpp`. -/
inductive Event where
  /-- Entry into `facebook::jni::initialize` with this handle. -/
  | fbjniEnter (vm : JavaVM)
  /-- Invocation, by `facebook::jni::initialize`, of the function object it was handed. -/
  | invokeCallback
  /-- Exit from `facebook::jni::initialize`, by return or by exception. -/
  | fbjniLeave
  /-- Call of `margelo::nitro::battery::initialize` with this handle. -/
  | batteryInit (vm : JavaVM)
deriving DecidableEq

/-- The world: the call log and the state `ext` owned by the runtime and the external
modules. -/
structure World (σ : Type) where
  log : List Event
  ext : σ
deriving DecidableEq

/-- Append one event to the log. -/
def World.record {σ : Type} (w : World σ) (ev : Event) : World σ :=
  { w with log := w.log ++ [ev] }

/-- A behaviour of a routine that receives one `void()` function object: it may read
and write the external state, invoke the function object any number of times, observe
whether each invocation threw, and finally return or throw. -/
inductive Script (σ ε α : Type) where
  | ret (a : α)
  | raise (e : ε)
  | get (k : σ → Script σ ε α)
  | put (s : σ) (k : Script σ ε α)
  | invoke (k : Except ε Unit → Script σ ε α)

/-- Run a script against a concrete function object `cb`, logging each invocation. -/
def Script.run {σ ε α : Type} :
    Script σ ε α → Eff (World σ) ε Unit → Eff (World σ) ε α
  | Script.ret a, _ => fun w => (Except.ok a, w)
  | Script.raise e, _ => fun w => (Except.error e, w)
  | Script.get k, cb => fun w => (k w.ext).run cb w
  | Script.put s k, cb => fun w => k.run cb { w with ext := s }
  | Script.invoke k, cb => fun w =>
      (k (cb (w.record Event.invokeCallback)).1).run cb
        (cb (w.record Event.invokeCallback)).2

/-- Stand-in for `facebook::jni::initialize`, whose code is not part of this repository:
its behaviour is the parameter `script`, which may depend on the handle. The stand-in
logs entry with the handle it received, runs the script, logs exit. -/
def fbjni_init {σ ε : Type} (script : JavaVM → Script σ ε jint) (vm : JavaVM)
    (cb : Eff (World σ) ε Unit) : Eff (World σ) ε jint :=
  fun w =>
    (((script vm).run cb (w.record (Event.fbjniEnter vm))).1,
      ((script vm).run cb (w.record (Event.fbjniEnter vm))).2.record Event.fbjniLeave)

/-- Stand-in for `margelo::nitro::battery::initialize`, which is declared in
`NitroBatteryOnLoad.hpp` and not defined in this file: its behaviour on the external
state is the parameter `beh`. The stand-in logs the call with the handle it received,
then behaves as `beh`. -/
def battery_init {σ ε ρ : Type} (beh : JavaVM → σ → Except ε ρ × σ) (vm : JavaVM) :
    Eff (World σ) ε ρ :=
  fun w => ((beh vm w.ext).1, { log := w.log ++ [Event.batteryInit vm], ext := (beh vm w.ext).2 })

/-- The events one call of the hook adds to the log, in the instrumented environment. -/
def JNI_OnLoad.trace {σ ε ρ : Type} (script : JavaVM → Script σ ε jint)
    (beh : JavaVM → σ → Except ε ρ × σ) (vm : JavaVM) (reserved : VoidPtr)
    (w : World σ) : List Event :=
  (JNI_OnLoad (fbjni_init script) (battery_init beh) vm reserved w).2.log.drop w.log.length

/-- The log left by `n` invocations of the hook's closure for handle `vm`: each
invocation is followed by one call of the external routine with `vm`. -/
def callbackTrace (vm : JavaVM) : Nat → List Event
  | 0 => []
  | n + 1 => Event.invokeCallback :: Event.batteryInit vm :: callbackTrace vm n

/-- Recognises entries into `facebook::jni::initialize`. -/
def Event.isFbjniEnter : Event → Bool
  | Event.fbjniEnter _ => true
  | _ => false

/-- Recognises calls of `margelo::nitro::battery::initialize`. -/
def Event.isBatteryInit : Event → Bool
  | Event.batteryInit _ => true
  | _ => false

/-! ## Sample behaviours used to exercise the statements -/

/-- The value of `JNI_VERSION_1_6`. -/
def JNI_VERSION_1_6 : jint := 0x00010006

/-- A `facebook::jni::initialize` that invokes the function object once and lets its
exception, if any, escape. -/
def scriptOnce : JavaVM → Script Nat String jint :=
  fun _ => Script.invoke fun r =>
    match r with
    | Except.ok _ => Script.ret JNI_VERSION_1_6
    | Except.error e => Script.raise e

/-- A `facebook::jni::initialize` that fails before it reaches the function object. -/
def scriptFailEarly : JavaVM → Script Nat String jint :=
  fun _ => Script.raise "Failed to initialize fbjni"

/-- A `facebook::jni::initialize` that returns without invoking the function object. -/
def scriptSkip : JavaVM → Script Nat String jint :=
  fun _ => Script.ret JNI_VERSION_1_6

/-- A `facebook::jni::initialize` that invokes the function object twice, ignoring
failures. -/
def scriptTwice : JavaVM → Script Nat String jint :=
  fun _ => Script.invoke fun _ => Script.invoke fun _ => Script.ret JNI_VERSION_1_6

/-- An external routine that registers something (bumps the state) and returns. -/
def behOk : JavaVM → Nat → Except String Int × Nat :=
  fun _ s => (Except.ok 0, s + 1)

/-- An external routine that throws. -/
def behFail : JavaVM → Nat → Except String Int × Nat :=
  fun _ s => (Except.error "registration failed", s)

/-! ## Auxiliary facts -/

theorem lambda_battery_init {σ ε ρ : Type} (beh : JavaVM → σ → Except ε ρ × σ) (vm : JavaVM)
    (w : World σ) :
    JNI_OnLoad.lambda (battery_init beh) vm w =
      ((beh vm w.ext).1.map (fun _ => ()),
        { log := w.log ++ [Event.batteryInit vm], ext := (beh vm w.ext).2 }) := by
  unfold JNI_OnLoad.lambda Eff.bind battery_init Eff.pure
  cases h : (beh vm w.ext).1 <;> simp [Except.map]

theorem run_lambda_log {σ ε ρ α : Type} (beh : JavaVM → σ → Except ε ρ × σ) (vm : JavaVM)
    (s : Script σ ε α) :
    ∀ w : World σ, ∃ n : Nat,
      (s.run (JNI_OnLoad.lambda (battery_init beh) vm) w).2.log = w.log ++ callbackTrace vm n := by
  induction s with
  | ret a => intro w; exact ⟨0, by simp [Script.run, callbackTrace]⟩
  | raise e => intro w; exact ⟨0, by simp [Script.run, callbackTrace]⟩
  | get k ih => intro w; exact ih w.ext w
  | put s k ih => intro w; exact ih { w with ext := s }
  | invoke k ih =>
    intro w
    obtain ⟨n, hn⟩ := ih (JNI_OnLoad.lambda (battery_init beh) vm (w.record Event.invokeCallback)).1
      (JNI_OnLoad.lambda (battery_init beh) vm (w.record Event.invokeCallback)).2
    refine ⟨n + 1, ?_⟩
    simp only [Script.run]
    rw [hn, lambda_battery_init]
    simp [World.record, callbackTrace]

theorem trace_shape {σ ε ρ : Type} (script : JavaVM → Script σ ε jint)
    (beh : JavaVM → σ → Except ε ρ × σ) (vm : JavaVM) (reserved : VoidPtr) (w : World σ) :
    ∃ n : Nat, JNI_OnLoad.trace script beh vm reserved w =
      Event.fbjniEnter vm :: (callbackTrace vm n ++ [Event.fbjniLeave]) := by
  obtain ⟨n, hn⟩ := run_lambda_log beh vm (script vm) (w.record (Event.fbjniEnter vm))
  refine ⟨n, ?_⟩
  simp only [JNI_OnLoad.trace, JNI_OnLoad, fbjni_init, World.record] at hn ⊢
  rw [hn]
  simp

theorem count_invoke_callbackTrace (vm : JavaVM) (n : Nat) :
    (callbackTrace vm n).count Event.invokeCallback = n := by
  induction n with
  | zero => rfl
  | succ n ih => simp [callbackTrace, ih]

theorem count_battery_callbackTrace (vm : JavaVM) (n : Nat) :
    (callbackTrace vm n).count (Event.batteryInit vm) = n := by
  induction n with
  | zero => rfl
  | succ n ih => simp [callbackTrace, ih]

theorem filter_enter_callbackTrace (vm : JavaVM) (n : Nat) :
    (callbackTrace vm n).filter Event.isFbjniEnter = [] := by
  induction n with
  | zero => rfl
  | succ n ih => simp [callbackTrace, ih, Event.isFbjniEnter]

theorem filter_battery_callbackTrace (vm : JavaVM) (n : Nat) :
    (callbackTrace vm n).filter Event.isBatteryInit = List.replicate n (Event.batteryInit vm) := by
  induction n with
  | zero => rfl
  | succ n ih => simp [callbackTrace, ih, Event.isBatteryInit, List.replicate_succ]

theorem log_eq_append_trace {σ ε ρ : Type} (script : JavaVM → Script σ ε jint)
    (beh : JavaVM → σ → Except ε ρ × σ) (vm : JavaVM) (reserved : VoidPtr) (w : World σ) :
    (JNI_OnLoad (fbjni_init script) (battery_init beh) vm reserved w).2.log =
      w.log ++ JNI_OnLoad.trace script beh vm reserved w := by
  obtain ⟨n, hn⟩ := run_lambda_log beh vm (script vm) (w.record (Event.fbjniEnter vm))
  simp only [JNI_OnLoad.trace, JNI_OnLoad, fbjni_init, World.record] at hn ⊢
  rw [hn]
  simp

theorem count_invoke_shape (vm : JavaVM) (n : Nat) :
    (Event.fbjniEnter vm :: (callbackTrace vm n ++ [Event.fbjniLeave])).count
      Event.invokeCallback = n := by
  simp [count_invoke_callbackTrace]

/-! ## Behaviour of the sample environment -/

theorem run_scriptOnce_behFail :
    JNI_OnLoad (fbjni_init scriptOnce) (battery_init behFail) ⟨7⟩ ⟨0⟩ ⟨[], 0⟩ =
      (Except.error "registration failed",
        ⟨[Event.fbjniEnter ⟨7⟩, Event.invokeCallback, Event.batteryInit ⟨7⟩,
          Event.fbjniLeave], 0⟩) := by
  rfl

theorem run_scriptOnce_behOk :
    JNI_OnLoad (fbjni_init scriptOnce) (battery_init behOk) ⟨7⟩ ⟨0⟩ ⟨[], 0⟩ =
      (Except.ok 65542,
        ⟨[Event.fbjniEnter ⟨7⟩, Event.invokeCallback, Event.batteryInit ⟨7⟩,
          Event.fbjniLeave], 1⟩) := by
  rfl

/-! ## The contract of the hook -/

/-- C1: for every handle `vm`, every value of the reserved parameter and every behaviour
of the two external routines, the outcome of `JNI_OnLoad` (its status code, when there is
one) is the outcome of the `facebook::jni::initialize` call it makes with its closure. -/
theorem JNI_OnLoad_status_passthrough {W ε ρ : Type}
    (fbjniInit : JavaVM → Eff W ε Unit → Eff W ε jint) (batteryInit : JavaVM → Eff W ε ρ)
    (vm : JavaVM) (reserved : VoidPtr) (w : W) :
    (JNI_OnLoad fbjniInit batteryInit vm reserved w).1 =
      (fbjniInit vm (JNI_OnLoad.lambda batteryInit vm) w).1 :=
  rfl

/-- C2: in the instrumented environment, for every scripted behaviour of
`facebook::jni::initialize` and every behaviour of the external routine, one call of
`JNI_OnLoad` only appends to the call log, and among the appended events there is exactly
one entry into `facebook::jni::initialize`, carrying the handle `JNI_OnLoad` received. -/
theorem JNI_OnLoad_calls_fbjni_once {σ ε ρ : Type} (script : JavaVM → Script σ ε jint)
    (beh : JavaVM → σ → Except ε ρ × σ) (vm : JavaVM) (reserved : VoidPtr) (w : World σ) :
    (JNI_OnLoad (fbjni_init script) (battery_init beh) vm reserved w).2.log =
        w.log ++ JNI_OnLoad.trace script beh vm reserved w ∧
      (JNI_OnLoad.trace script beh vm reserved w).filter Event.isFbjniEnter =
        [Event.fbjniEnter vm] := by
  refine ⟨log_eq_append_trace script beh vm reserved w, ?_⟩
  obtain ⟨n, hn⟩ := trace_shape script beh vm reserved w
  rw [hn]
  simp [List.filter_cons, Event.isFbjniEnter, filter_enter_callbackTrace]

/-- C3, as stated, fails: when `facebook::jni::initialize` returns without invoking the
function object it was handed, one call of `JNI_OnLoad` makes no call of the external
routine at all. -/
theorem JNI_OnLoad_battery_once_fails :
    JNI_OnLoad.trace scriptSkip behOk ⟨7⟩ ⟨0⟩ ⟨[], 0⟩ =
        [Event.fbjniEnter ⟨7⟩, Event.fbjniLeave] ∧
      (JNI_OnLoad.trace scriptSkip behOk ⟨7⟩ ⟨0⟩ ⟨[], 0⟩).count (Event.batteryInit ⟨7⟩) ≠ 1 := by
  decide

/-- C3, amended: whenever `facebook::jni::initialize` invokes the function object it was
handed exactly once, one call of `JNI_OnLoad` calls the external routine exactly once,
between entry into and exit from `facebook::jni::initialize`, with the handle
`JNI_OnLoad` received. -/
theorem JNI_OnLoad_calls_battery_once {σ ε ρ : Type} (script : JavaVM → Script σ ε jint)
    (beh : JavaVM → σ → Except ε ρ × σ) (vm : JavaVM) (reserved : VoidPtr) (w : World σ)
    (h : (JNI_OnLoad.trace script beh vm reserved w).count Event.invokeCallback = 1) :
    JNI_OnLoad.trace script beh vm reserved w =
      [Event.fbjniEnter vm, Event.invokeCallback, Event.batteryInit vm, Event.fbjniLeave] := by
  obtain ⟨n, hn⟩ := trace_shape script beh vm reserved w
  rw [hn] at h ⊢
  rw [count_invoke_shape] at h
  subst h
  rfl

theorem JNI_OnLoad_calls_battery_once_witness :
    (JNI_OnLoad.trace scriptOnce behOk ⟨7⟩ ⟨0⟩ ⟨[], 0⟩).count Event.invokeCallback = 1 ∧
      JNI_OnLoad.trace scriptOnce behOk ⟨7⟩ ⟨0⟩ ⟨[], 0⟩ =
        [Event.fbjniEnter ⟨7⟩, Event.invokeCallback, Event.batteryInit ⟨7⟩,
          Event.fbjniLeave] :=
  ⟨by decide, JNI_OnLoad_calls_battery_once scriptOnce behOk ⟨7⟩ ⟨0⟩ ⟨[], 0⟩ (by decide)⟩

/-- C4: if the external routine throws `e` when the closure invokes it (in world `w0`,
leaving world `w1`), the closure throws exactly `e` and leaves exactly `w1`; and the
outcome of `JNI_OnLoad` is exactly what `facebook::jni::initialize` makes of that
closure: the hook adds no handler, replacement or wrapping. -/
theorem JNI_OnLoad_battery_failure_unaltered {W ε ρ : Type}
    (fbjniInit : JavaVM → Eff W ε Unit → Eff W ε jint) (batteryInit : JavaVM → Eff W ε ρ)
    (vm : JavaVM) (reserved : VoidPtr) (w w0 w1 : W) (e : ε)
    (h : batteryInit vm w0 = (Except.error e, w1)) :
    JNI_OnLoad.lambda batteryInit vm w0 = (Except.error e, w1) ∧
      JNI_OnLoad fbjniInit batteryInit vm reserved w =
        fbjniInit vm (JNI_OnLoad.lambda batteryInit vm) w := by
  refine ⟨?_, rfl⟩
  simp only [JNI_OnLoad.lambda, Eff.bind, h]

theorem JNI_OnLoad_battery_failure_unaltered_witness :
    battery_init behFail ⟨7⟩ ⟨[Event.fbjniEnter ⟨7⟩, Event.invokeCallback], 0⟩ =
        (Except.error "registration failed",
          ⟨[Event.fbjniEnter ⟨7⟩, Event.invokeCallback, Event.batteryInit ⟨7⟩], 0⟩) ∧
      (JNI_OnLoad.lambda (battery_init behFail) ⟨7⟩
          ⟨[Event.fbjniEnter ⟨7⟩, Event.invokeCallback], 0⟩ =
          (Except.error "registration failed",
            ⟨[Event.fbjniEnter ⟨7⟩, Event.invokeCallback, Event.batteryInit ⟨7⟩], 0⟩) ∧
        JNI_OnLoad (fbjni_init scriptOnce) (battery_init behFail) ⟨7⟩ ⟨0⟩ ⟨[], 0⟩ =
          fbjni_init scriptOnce ⟨7⟩ (JNI_OnLoad.lambda (battery_init behFail) ⟨7⟩) ⟨[], 0⟩) :=
  ⟨rfl, JNI_OnLoad_battery_failure_unaltered (fbjni_init scriptOnce) (battery_init behFail)
    ⟨7⟩ ⟨0⟩ ⟨[], 0⟩ ⟨[Event.fbjniEnter ⟨7⟩, Event.invokeCallback], 0⟩
    ⟨[Event.fbjniEnter ⟨7⟩, Event.invokeCallback, Event.batteryInit ⟨7⟩], 0⟩
    "registration failed" rfl⟩

/-- C5: if the `facebook::jni::initialize` call made by `JNI_OnLoad` throws `e` and
leaves world `w'`, then `JNI_OnLoad` throws that same `e` (it returns no status code)
and leaves exactly `w'` (it does nothing after the failure). -/
theorem JNI_OnLoad_fbjni_failure_propagates {W ε ρ : Type}
    (fbjniInit : JavaVM → Eff W ε Unit → Eff W ε jint) (batteryInit : JavaVM → Eff W ε ρ)
    (vm : JavaVM) (reserved : VoidPtr) (w w' : W) (e : ε)
    (h : fbjniInit vm (JNI_OnLoad.lambda batteryInit vm) w = (Except.error e, w')) :
    JNI_OnLoad fbjniInit batteryInit vm reserved w = (Except.error e, w') :=
  h

theorem JNI_OnLoad_fbjni_failure_propagates_witness :
    fbjni_init scriptFailEarly ⟨7⟩ (JNI_OnLoad.lambda (battery_init behOk) ⟨7⟩) ⟨[], 0⟩ =
        (Except.error "Failed to initialize fbjni",
          ⟨[Event.fbjniEnter ⟨7⟩, Event.fbjniLeave], 0⟩) ∧
      JNI_OnLoad (fbjni_init scriptFailEarly) (battery_init behOk) ⟨7⟩ ⟨0⟩ ⟨[], 0⟩ =
        (Except.error "Failed to initialize fbjni",
          ⟨[Event.fbjniEnter ⟨7⟩, Event.fbjniLeave], 0⟩) :=
  ⟨rfl, JNI_OnLoad_fbjni_failure_propagates (fbjni_init scriptFailEarly) (battery_init behOk)
    ⟨7⟩ ⟨0⟩ ⟨[], 0⟩ ⟨[Event.fbjniEnter ⟨7⟩, Event.fbjniLeave], 0⟩
    "Failed to initialize fbjni" rfl⟩

/-- C6: on an explicit world state, the world after `JNI_OnLoad vm reserved` is exactly
the world left by its one `facebook::jni::initialize` call (which includes whatever the
external routine does inside the closure); the hook adds no effect before or after. -/
theorem JNI_OnLoad_no_own_effect {W ε ρ : Type}
    (fbjniInit : JavaVM → Eff W ε Unit → Eff W ε jint) (batteryInit : JavaVM → Eff W ε ρ)
    (vm : JavaVM) (reserved : VoidPtr) (w : W) :
    (JNI_OnLoad fbjniInit batteryInit vm reserved w).2 =
      (fbjniInit vm (JNI_OnLoad.lambda batteryInit vm) w).2 :=
  rfl

/-- C7: the reserved parameter is unused: for the same handle, the same behaviour of the
two external routines and the same initial world, any two values of the reserved
parameter give the same outcome (status code or failure) and the same final world; and in
the instrumented environment they give the same logged calls with the same arguments. -/
theorem JNI_OnLoad_reserved_unused {W σ ε ρ : Type}
    (fbjniInit : JavaVM → Eff W ε Unit → Eff W ε jint) (batteryInit : JavaVM → Eff W ε ρ)
    (script : JavaVM → Script σ ε jint) (beh : JavaVM → σ → Except ε ρ × σ)
    (vm : JavaVM) (r1 r2 : VoidPtr) (w : W) (ws : World σ) :
    JNI_OnLoad fbjniInit batteryInit vm r1 w = JNI_OnLoad fbjniInit batteryInit vm r2 w ∧
      JNI_OnLoad.trace script beh vm r1 ws = JNI_OnLoad.trace script beh vm r2 ws :=
  ⟨rfl, rfl⟩

/-- C8: in the instrumented environment, each invocation of the hook's closure makes
exactly one call of the external routine, with the captured handle; and if
`facebook::jni::initialize` invokes the function object `n` times during one call of
`JNI_OnLoad`, the appended log is the entry, then `n` times an invocation followed by one
call of the external routine with `vm`, then the exit. So the external routine is called
exactly `n` times, each time with `vm` and each time from inside an invocation, and not at
all when `n = 0`. -/
theorem JNI_OnLoad_battery_calls_follow_invocations {σ ε ρ : Type}
    (script : JavaVM → Script σ ε jint) (beh : JavaVM → σ → Except ε ρ × σ) (vm : JavaVM)
    (reserved : VoidPtr) (w : World σ) (n : Nat)
    (h : (JNI_OnLoad.trace script beh vm reserved w).count Event.invokeCallback = n) :
    (∀ w0 : World σ, (JNI_OnLoad.lambda (battery_init beh) vm w0).2.log =
        w0.log ++ [Event.batteryInit vm]) ∧
      JNI_OnLoad.trace script beh vm reserved w =
        Event.fbjniEnter vm :: (callbackTrace vm n ++ [Event.fbjniLeave]) ∧
      (JNI_OnLoad.trace script beh vm reserved w).filter Event.isBatteryInit =
        List.replicate n (Event.batteryInit vm) := by
  obtain ⟨m, hm⟩ := trace_shape script beh vm reserved w
  rw [hm] at h ⊢
  rw [count_invoke_shape] at h
  subst h
  refine ⟨fun w0 => by rw [lambda_battery_init], rfl, ?_⟩
  simp [List.filter_cons, Event.isBatteryInit, filter_battery_callbackTrace]

theorem JNI_OnLoad_battery_calls_follow_invocations_witness :
    (JNI_OnLoad.trace scriptTwice behFail ⟨7⟩ ⟨0⟩ ⟨[], 0⟩).count Event.invokeCallback = 2 ∧
      ((∀ w0 : World Nat, (JNI_OnLoad.lambda (battery_init behFail) ⟨7⟩ w0).2.log =
          w0.log ++ [Event.batteryInit ⟨7⟩]) ∧
        JNI_OnLoad.trace scriptTwice behFail ⟨7⟩ ⟨0⟩ ⟨[], 0⟩ =
          Event.fbjniEnter ⟨7⟩ :: (callbackTrace ⟨7⟩ 2 ++ [Event.fbjniLeave]) ∧
        (JNI_OnLoad.trace scriptTwice behFail ⟨7⟩ ⟨0⟩ ⟨[], 0⟩).filter Event.isBatteryInit =
          List.replicate 2 (Event.batteryInit ⟨7⟩)) :=
  ⟨by decide,
    JNI_OnLoad_battery_calls_follow_invocations scriptTwice behFail ⟨7⟩ ⟨0⟩ ⟨[], 0⟩ 2
      (by decide)⟩

end NitroBattery
